/-
Verification of the TrueX sharing core (HA-TrueX repository).

Shallow embedding of:
  * the request signer (`_string_to_sign` in
    custom_components/truex/truex_sharing/customerapi.py, and the identical
    inline string-to-sign construction in truex_sharing/customerapi.py
    `CustomerApi._calc_sign`), including a full executable SHA-256;
  * the token model (`TrueXTokenInfo`) of both client variants;
  * the authenticated request path (`CustomerApi.request`) of both client
    variants, with the network transport modeled as a scripted oracle;
  * the device synchronization layer
    (custom_components/truex/truex_sharing/manager.py).

Conventions used throughout:
  * Python dicts with string keys are modeled as association lists with
    in-place overwrite (`alSet`), matching dict insertion-order semantics.
  * Python exceptions are modeled with `Except`: every effectful embedded
    function returns `Except Err α × State` so that state mutations made
    before a raise persist, as they do in Python.
  * Millisecond / second timestamps (`time.time()`) are passed in explicitly
    as integers; the float carrier of Python's clock is modeled at integer
    resolution, which is faithful for every ordering fact stated here.
  * Network I/O (`aiohttp`) is modeled by scripted oracles: a function from
    the index of the network call to the outcome of that call.
  * Logging calls (`logger.*`) have no observable effect and are dropped.
-/
import Mathlib

/-! ## Part 0: SHA-256 over byte lists (hashlib.sha256(...).hexdigest()) -/

/-- Modulus for 32-bit words. -/
def M32 : Nat := 4294967296

/-- Rotate a 32-bit word right by `n`. -/
def rotr32 (n x : Nat) : Nat := (x >>> n) ||| ((x <<< (32 - n)) % M32)

/-- Bitwise complement within 32 bits. -/
def bnot32 (x : Nat) : Nat := x ^^^ (M32 - 1)

/-- Small sigma-0 of the SHA-256 message schedule. -/
def ssig0 (x : Nat) : Nat := rotr32 7 x ^^^ rotr32 18 x ^^^ (x >>> 3)

/-- Small sigma-1 of the SHA-256 message schedule. -/
def ssig1 (x : Nat) : Nat := rotr32 17 x ^^^ rotr32 19 x ^^^ (x >>> 10)

/-- Big sigma-0 of the SHA-256 compression function. -/
def bsig0 (x : Nat) : Nat := rotr32 2 x ^^^ rotr32 13 x ^^^ rotr32 22 x

/-- Big sigma-1 of the SHA-256 compression function. -/
def bsig1 (x : Nat) : Nat := rotr32 6 x ^^^ rotr32 11 x ^^^ rotr32 25 x

/-- Choice function of SHA-256. -/
def chf (e f g : Nat) : Nat := (e &&& f) ^^^ (bnot32 e &&& g)

/-- Majority function of SHA-256. -/
def majf (a b c : Nat) : Nat := (a &&& b) ^^^ (a &&& c) ^^^ (b &&& c)

/-- Round constants of SHA-256 (FIPS 180-4), written in decimal. -/
def K256 : List Nat :=
  [1116352408, 1899447441, 3049323471, 3921009573, 961987163,
   1508970993, 2453635748, 2870763221, 3624381080, 310598401,
   607225278, 1426881987, 1925078388, 2162078206, 2614888103,
   3248222580, 3835390401, 4022224774, 264347078, 604807628,
   770255983, 1249150122, 1555081692, 1996064986, 2554220882,
   2821834349, 2952996808, 3210313671, 3336571891, 3584528711,
   113926993, 338241895, 666307205, 773529912, 1294757372,
   1396182291, 1695183700, 1986661051, 2177026350, 2456956037,
   2730485921, 2820302411, 3259730800, 3345764771, 3516065817,
   3600352804, 4094571909, 275423344, 430227734, 506948616,
   659060556, 883997877, 958139571, 1322822218, 1537002063,
   1747873779, 1955562222, 2024104815, 2227730452, 2361852424,
   2428436474, 2756734187, 3204031479, 3329325298]

/-- Initial hash values of SHA-256 (FIPS 180-4), written in decimal. -/
def H256 : List Nat :=
  [1779033703, 3144134277, 1013904242, 2773480762, 1359893119,
   2600822924, 528734635, 1541459225]

/-- Group a byte list into big-endian 32-bit words. -/
def bytesToWords : List Nat → List Nat
  | b0 :: b1 :: b2 :: b3 :: rest => (((b0 * 256 + b1) * 256 + b2) * 256 + b3) :: bytesToWords rest
  | _ => []

/-- Next word of the SHA-256 message schedule, from the words produced so far. -/
def wNext (w : List Nat) : Nat :=
  let n := w.length
  (ssig1 (w.getD (n - 2) 0) + w.getD (n - 7) 0 + ssig0 (w.getD (n - 15) 0) + w.getD (n - 16) 0) % M32

/-- Extend the 16-word schedule by `k` further words. -/
def extendW : Nat → List Nat → List Nat
  | 0, w => w
  | k + 1, w => extendW k (w ++ [wNext w])

/-- One SHA-256 compression round; the state is the 8-word working vector. -/
def round256 (s : List Nat) (kw : Nat × Nat) : List Nat :=
  match s with
  | [a, b, c, d, e, f, g, h] =>
    let t1 := (h + bsig1 e + chf e f g + kw.1 + kw.2) % M32
    let t2 := (bsig0 a + majf a b c) % M32
    [(t1 + t2) % M32, a, b, c, (d + t1) % M32, e, f, g]
  | other => other

/-- Compress one 64-byte block into the running hash. -/
def compressBlock (h : List Nat) (block : List Nat) : List Nat :=
  let w := extendW 48 (bytesToWords block)
  let s := (K256.zip w).foldl round256 h
  (h.zip s).map (fun p => (p.1 + p.2) % M32)

/-- Big-endian byte representation of `n` in `k` bytes. -/
def toBytesBE : Nat → Nat → List Nat
  | 0, _ => []
  | k + 1, n => toBytesBE k (n / 256) ++ [n % 256]

/-- SHA-256 padding: append 0x80, zeros, and the 64-bit big-endian bit length. -/
def sha256Pad (msg : List Nat) : List Nat :=
  let len := msg.length
  let z := (64 + 55 - len % 64) % 64
  msg ++ [128] ++ List.replicate z 0 ++ toBytesBE 8 (len * 8)

/-- Split a list into 64-byte chunks (fuel-driven structural recursion). -/
def chunks64 : Nat → List Nat → List (List Nat)
  | 0, _ => []
  | _, [] => []
  | fuel + 1, l => l.take 64 :: chunks64 fuel (l.drop 64)

/-- Lowercase hexadecimal digit. -/
def hexDigitChar (n : Nat) : Char := Char.ofNat (if n < 10 then 48 + n else 87 + n)

/-- Lowercase 8-digit hexadecimal rendering of a 32-bit word. -/
def wordHex (w : Nat) : String :=
  String.mk ((List.range 8).map (fun i => hexDigitChar ((w >>> ((7 - i) * 4)) % 16)))

/-- SHA-256 digest (as eight 32-bit words) of a byte list. -/
def sha256Words (msg : List Nat) : List Nat :=
  (chunks64 (msg.length + 9) (sha256Pad msg)).foldl compressBlock H256

/-- UTF-8 encoding of one character. -/
def utf8Char (c : Char) : List Nat :=
  let n := c.toNat
  if n < 128 then [n]
  else if n < 2048 then [192 + n / 64, 128 + n % 64]
  else if n < 65536 then [224 + n / 4096, 128 + (n / 64) % 64, 128 + n % 64]
  else [240 + n / 262144, 128 + (n / 4096) % 64, 128 + (n / 64) % 64, 128 + n % 64]

/-- UTF-8 encoding of a string (Python `s.encode("utf-8")`). -/
def utf8Bytes (s : String) : List Nat := (s.data.map utf8Char).flatten

/-- Lowercase hex SHA-256 digest of a string,
modeling Python `hashlib.sha256(s.encode("utf-8")).hexdigest()`. -/
def sha256Hex (s : String) : String := String.join ((sha256Words (utf8Bytes s)).map wordHex)

/-! ## Part 1: Python `sorted` on strings, `"&".join`, and dict lookup -/

/-- Lexicographic (code-point) comparison of character lists, the order Python
uses to compare `str` values. -/
def lexLe : List Char → List Char → Bool
  | [], _ => true
  | _ :: _, [] => false
  | a :: as, b :: bs =>
    if a < b then true
    else if b < a then false
    else lexLe as bs

/-- Python string comparison `a <= b` (lexicographic by code point). -/
def strLe (a b : String) : Bool := lexLe a.data b.data

/-- Python `sorted` on a list of strings. Insertion sort is used; since the
result of `sorted` is characterized by being a sorted permutation of the
input, this is the same function. -/
def sortStrs (l : List String) : List String := l.insertionSort (fun a b => strLe a b = true)

/-- Python `"&".join(pieces)`. -/
def joinAmp : List String → String
  | [] => ""
  | [x] => x
  | x :: xs => x ++ "&" ++ joinAmp xs

/-- Python dict lookup `d[k]` on an association-list dict whose keys contain
`k`; out-of-dict keys yield `""` (never exercised: the keys iterated always
come from the dict itself). -/
def dictGet (q : List (String × String)) (k : String) : String := (q.lookup k).getD ""

/-! ## Part 2: the Signer string-to-sign -/

/-- Embedding of `_string_to_sign(method, path, query, body)` from
custom_components/truex/truex_sharing/customerapi.py (lines 142-169). -/
def stringToSign (method path : String) (query : List (String × String)) (body : String) :
    String :=
  let body_hash := sha256Hex body
  let url :=
    if query = [] then path
    else
      let sorted_keys := sortStrs (query.map Prod.fst)
      let qs := joinAmp (sorted_keys.map (fun k => k ++ "=" ++ dictGet query k))
      path ++ "?" ++ qs
  let headers_str := ""
  method ++ "\n" ++ body_hash ++ "\n" ++ headers_str ++ "\n" ++ url

/-- Embedding of the string-to-sign construction inlined in
`CustomerApi._calc_sign` of truex_sharing/customerapi.py (lines 140-158).
Note it guards on the emptiness of the joined query STRING, not of the dict. -/
def stringToSignTX (method path : String) (query : List (String × String)) (body : String) :
    String :=
  let content_hash := sha256Hex body
  let sorted_query :=
    if query = [] then ""
    else joinAmp ((sortStrs (query.map Prod.fst)).map (fun k => k ++ "=" ++ dictGet query k))
  let url_with_query := if sorted_query = "" then path else path ++ "?" ++ sorted_query
  let headers_str := ""
  method ++ "\n" ++ content_hash ++ "\n" ++ headers_str ++ "\n" ++ url_with_query

/-- Canonical request string as worded by the spec (§4.1): content hash is the
SHA-256 hex digest of the body text, canonical URL is the path, or the path
followed by a question mark and the query pairs joined in sorted key order;
result is METHOD, newline, content hash, newline, empty signed-headers line,
newline, canonical URL. -/
def canonicalRequestStringSpec (method path : String) (query : List (String × String))
    (body : String) : String :=
  let contentHash := sha256Hex body
  let canonicalUrl :=
    if query = [] then path
    else path ++ "?" ++ joinAmp ((sortStrs (query.map Prod.fst)).map
      (fun k => k ++ "=" ++ dictGet query k))
  method ++ "\n" ++ contentHash ++ "\n" ++ "" ++ "\n" ++ canonicalUrl

/-! ## Part 3: JSON scalars, responses, errors, the token model -/

/-- Scalar JSON value as it appears in the decoded responses. -/
inductive JVal where
  | null
  | jbool (b : Bool)
  | jnum (n : Int)
  | jstr (s : String)
deriving DecidableEq

/-- Python truthiness of a scalar, as used by `if response.get("success")`:
a missing key yields None, modeled by `null`. -/
def JVal.truthy : JVal → Bool
  | .null => false
  | .jbool b => b
  | .jnum n => n != 0
  | .jstr s => s != ""

/-- Typed payload of the token endpoints' `result` object; the `.get`
defaults of the Python code are the field defaults. -/
structure TokenResult where
  access_token : String := ""
  refresh_token : String := ""
  uid : String := ""
  expire_time : Int := 0
deriving DecidableEq

/-- Decoded JSON response object: the envelope keys the clients inspect
(`success`, `code`, `msg`, `t`) plus the typed `result` payload; `none`
models a missing `result` key. -/
structure Resp (ρ : Type) where
  success : JVal := .null
  code : JVal := .null
  msg : JVal := .null
  t : Int := 0
  result : Option ρ := none
deriving DecidableEq

/-- Exceptions: TrueXAPIError carries the offending code/msg; `transport`
stands for any other exception out of the HTTP layer. -/
inductive Err where
  | apiError (code msg : JVal)
  | transport (tag : Nat)
deriving DecidableEq

/-- Network-call outcome where the code reads `resp.json()` directly. -/
inductive NetRes (ρ : Type) where
  | throw (e : Err)
  | ok (r : Resp ρ)

/-- Network-call outcome where the code first checks `resp.ok` (only the
business call of the custom_components `request` does). -/
inductive BizRes (ρ : Type) where
  | throw (e : Err)
  | httpErr
  | ok (r : Resp ρ)

/-- Embedding of `TrueXTokenInfo` state (custom_components variant,
customerapi.py lines 26-89): absolute expiry in ms. -/
structure TokenInfoCC where
  access_token : String
  refresh_token : String
  uid : String
  expire_time : Int
  expire_at : Int
deriving DecidableEq

/-- Empty token created at client construction (CC variant). -/
def TokenInfoCC.empty : TokenInfoCC := ⟨"", "", "", 0, 0⟩

/-- CC constructor branch for the `token_data` dict built from a successful
token response: `expire_at = t + expire_time * 1000`. -/
def TokenInfoCC.ofResp (r : Resp TokenResult) : TokenInfoCC :=
  let result := r.result.getD {}
  { access_token := result.access_token
    refresh_token := result.refresh_token
    uid := result.uid
    expire_time := result.expire_time
    expire_at := r.t + result.expire_time * 1000 }

/-- Embedding of `TrueXTokenInfo.is_expired` (custom_components variant,
lines 56-62): true when there is no access token, or when
`expire_at - 60000 <= now_ms`. -/
def TokenInfoCC.isExpired (t : TokenInfoCC) (now_ms : Int) : Bool :=
  if t.access_token = "" then true
  else decide (t.expire_at - 60000 ≤ now_ms)

/-- Serialized CC token snapshot: the dict written by `to_dict` has these five
fixed keys, so it is modeled as a record. -/
structure TokenSnapshotCC where
  access_token : String
  refresh_token : String
  uid : String
  expire_time : Int
  expire_at : Int
deriving DecidableEq

/-- Embedding of `TrueXTokenInfo.to_dict` (custom_components variant, lines 64-72). -/
def TokenInfoCC.toDict (t : TokenInfoCC) : TokenSnapshotCC :=
  ⟨t.access_token, t.refresh_token, t.uid, t.expire_time, t.expire_at⟩

/-- Embedding of `TrueXTokenInfo.from_dict` (custom_components variant, lines
74-89): each field is read back with its `.get` default never needed on a
snapshot produced by `to_dict`. -/
def TokenInfoCC.fromDict (d : TokenSnapshotCC) : TokenInfoCC :=
  ⟨d.access_token, d.refresh_token, d.uid, d.expire_time, d.expire_at⟩

/-- Embedding of `TrueXTokenInfo` state (truex_sharing variant,
customerapi.py lines 27-72): relative expiry from an acquisition instant.
`time.time()` is modeled at integer (second) resolution. -/
structure TokenInfoTX where
  access_token : String
  refresh_token : String
  expire_time : Int
  uid : String
  token_acquired_at : Int
deriving DecidableEq

/-- Empty token created at client construction (TX variant). -/
def TokenInfoTX.empty : TokenInfoTX := ⟨"", "", 0, "", 0⟩

/-- TX constructor `TrueXTokenInfo(response)`: fields are read from
`response["result"]` (the top-level fallback of
`token_response.get("result", token_response)` yields only absent keys in
this typed response model, i.e. the defaults); `token_acquired_at` is the
clock at construction. -/
def TokenInfoTX.ofResp (r : Resp TokenResult) (now : Int) : TokenInfoTX :=
  let result := r.result.getD {}
  ⟨result.access_token, result.refresh_token, result.expire_time, result.uid, now⟩

/-- Embedding of `TrueXTokenInfo.is_expired` (truex_sharing variant, lines
46-51): true when there is no access token, or when the clock is STRICTLY
past `token_acquired_at + expire_time - 60`. -/
def TokenInfoTX.isExpired (t : TokenInfoTX) (now : Int) : Bool :=
  if t.access_token = "" then true
  else decide (t.token_acquired_at + t.expire_time - 60 < now)

/-- Serialized TX token snapshot (five fixed keys of `to_dict`). -/
structure TokenSnapshotTX where
  access_token : String
  refresh_token : String
  expire_time : Int
  uid : String
  token_acquired_at : Int
deriving DecidableEq

/-- Embedding of `TrueXTokenInfo.to_dict` (truex_sharing variant, lines 53-61). -/
def TokenInfoTX.toDict (t : TokenInfoTX) : TokenSnapshotTX :=
  ⟨t.access_token, t.refresh_token, t.expire_time, t.uid, t.token_acquired_at⟩

/-- Embedding of `TrueXTokenInfo.from_dict` (truex_sharing variant, lines 63-72). -/
def TokenInfoTX.fromDict (d : TokenSnapshotTX) : TokenInfoTX :=
  ⟨d.access_token, d.refresh_token, d.expire_time, d.uid, d.token_acquired_at⟩

/-! ## Part 4: the custom_components CustomerApi request path -/

/-- Mutable client state of the custom_components CustomerApi that the request
path touches, plus call counters indexing the scripted transport. -/
structure ApiStCC where
  token : TokenInfoCC
  refreshing_token : Bool
  tokCalls : Nat
  bizCalls : Nat
deriving DecidableEq

/-- Consume the next token-endpoint network response. -/
def takeTok (tok : Nat → NetRes TokenResult) (st : ApiStCC) :
    NetRes TokenResult × ApiStCC :=
  (tok st.tokCalls, { st with tokCalls := st.tokCalls + 1 })

/-- Consume the next business-endpoint network response. -/
def takeBiz {ρ : Type} (biz : Nat → BizRes ρ) (st : ApiStCC) : BizRes ρ × ApiStCC :=
  (biz st.bizCalls, { st with bizCalls := st.bizCalls + 1 })

/-- Embedding of `CustomerApi.get_access_token` (custom_components variant,
lines 226-294): on a successful response the stored token is replaced
wholesale and the response returned; otherwise TrueXAPIError is raised.
Signature building is pure and does not influence the result; the token
listener callback has no observable effect here and is dropped. -/
def getAccessTokenCC (tok : Nat → NetRes TokenResult) (st : ApiStCC) :
    Except Err (Resp TokenResult) × ApiStCC :=
  match takeTok tok st with
  | (.throw e, st1) => (.error e, st1)
  | (.ok response, st1) =>
    if response.success.truthy then
      (.ok response, { st1 with token := TokenInfoCC.ofResp response })
    else
      (.error (.apiError response.code response.msg), st1)

/-- Embedding of `CustomerApi._refresh_access_token` (custom_components
variant, lines 296-363). When `_refreshing_token` is already set the method
returns IMMEDIATELY (no waiting, no network call). Otherwise the flag is set,
the refresh endpoint called; a non-success response falls back to
`get_access_token` (whose raise would be caught by the `except Exception`
handler, which calls `get_access_token` once more); any exception in the try
body likewise falls back to `get_access_token`; the `finally` clause always
clears the flag. -/
def refreshAccessTokenCC (tok : Nat → NetRes TokenResult) (st : ApiStCC) :
    Except Err Unit × ApiStCC :=
  if st.refreshing_token then (.ok (), st)
  else
    let stFlag := { st with refreshing_token := true }
    let body : Except Err Unit × ApiStCC :=
      match takeTok tok stFlag with
      | (.throw _, st1) =>
        match getAccessTokenCC tok st1 with
        | (.ok _, st2) => (.ok (), st2)
        | (.error e, st2) => (.error e, st2)
      | (.ok response, st1) =>
        if response.success.truthy then
          (.ok (), { st1 with token := TokenInfoCC.ofResp response })
        else
          match getAccessTokenCC tok st1 with
          | (.ok _, st2) => (.ok (), st2)
          | (.error _, st2) =>
            match getAccessTokenCC tok st2 with
            | (.ok _, st3) => (.ok (), st3)
            | (.error e, st3) => (.error e, st3)
    (body.1, { body.2 with refreshing_token := false })

/-- Embedding of `CustomerApi._ensure_token` (custom_components variant,
lines 365-371). -/
def ensureTokenCC (nowMs : Int) (tok : Nat → NetRes TokenResult) (st : ApiStCC) :
    Except Err Unit × ApiStCC :=
  if st.token.isExpired nowMs then
    if st.token.refresh_token ≠ "" then refreshAccessTokenCC tok st
    else
      match getAccessTokenCC tok st with
      | (.ok _, st1) => (.ok (), st1)
      | (.error e, st1) => (.error e, st1)
  else (.ok (), st)

/-- Literal `{"success": False}` dict returned by the custom_components
`request` on an HTTP-level (non-2xx) failure. -/
def failureResp {ρ : Type} : Resp ρ := { success := .jbool false }

/-- Embedding of `CustomerApi.request` (custom_components variant, lines
375-456): ensure a usable token, issue the signed call, return
`{"success": False}` on an HTTP-level error, raise TrueXAPIError on any
response whose success flag is falsy — with NO retry of any kind — and return
the response otherwise. Header/signature construction is pure and does not
influence control flow. -/
def requestCC {ρ : Type} (nowMs : Int) (tok : Nat → NetRes TokenResult)
    (biz : Nat → BizRes ρ) (st : ApiStCC) : Except Err (Resp ρ) × ApiStCC :=
  match ensureTokenCC nowMs tok st with
  | (.error e, st1) => (.error e, st1)
  | (.ok _, st1) =>
    match takeBiz biz st1 with
    | (.throw e, st2) => (.error e, st2)
    | (.httpErr, st2) => (.ok failureResp, st2)
    | (.ok response, st2) =>
      if response.success.truthy then (.ok response, st2)
      else (.error (.apiError response.code response.msg), st2)

/-! ## Part 5: the truex_sharing CustomerApi request path -/

/-- Mutable client state of the truex_sharing CustomerApi (no refresh guard
flag exists in this variant), plus call counters for the scripted transport. -/
structure ApiStTX where
  token : TokenInfoTX
  tokCalls : Nat
  bizCalls : Nat
deriving DecidableEq

/-- Consume the next token-endpoint network response (TX variant). -/
def takeTokTX (tok : Nat → NetRes TokenResult) (st : ApiStTX) :
    NetRes TokenResult × ApiStTX :=
  (tok st.tokCalls, { st with tokCalls := st.tokCalls + 1 })

/-- Consume the next business-endpoint network response (TX variant; this
`request` never checks `resp.ok`, it decodes the JSON directly). -/
def takeBizTX {ρ : Type} (biz : Nat → NetRes ρ) (st : ApiStTX) : NetRes ρ × ApiStTX :=
  (biz st.bizCalls, { st with bizCalls := st.bizCalls + 1 })

/-- Embedding of `CustomerApi.get_access_token` (truex_sharing variant, lines
201-224): on success the stored token is replaced wholesale and the response
returned; otherwise TrueXAPIError is raised. -/
def getAccessTokenTX (now : Int) (tok : Nat → NetRes TokenResult) (st : ApiStTX) :
    Except Err (Resp TokenResult) × ApiStTX :=
  match takeTokTX tok st with
  | (.throw e, st1) => (.error e, st1)
  | (.ok response, st1) =>
    if response.success.truthy then
      (.ok response, { st1 with token := TokenInfoTX.ofResp response now })
    else
      (.error (.apiError response.code response.msg), st1)

/-- Embedding of `CustomerApi.refresh_access_token` (truex_sharing variant,
lines 226-248): with no refresh token it delegates to `get_access_token`; on
a non-success refresh response it falls back to `get_access_token`; it has no
exception handling of its own. -/
def refreshAccessTokenTX (now : Int) (tok : Nat → NetRes TokenResult) (st : ApiStTX) :
    Except Err (Resp TokenResult) × ApiStTX :=
  if st.token.refresh_token = "" then getAccessTokenTX now tok st
  else
    match takeTokTX tok st with
    | (.throw e, st1) => (.error e, st1)
    | (.ok response, st1) =>
      if response.success.truthy then
        (.ok response, { st1 with token := TokenInfoTX.ofResp response now })
      else getAccessTokenTX now tok st1

/-- Embedding of `CustomerApi._ensure_token` (truex_sharing variant, lines
250-256). -/
def ensureTokenTX (now : Int) (tok : Nat → NetRes TokenResult) (st : ApiStTX) :
    Except Err Unit × ApiStTX :=
  if st.token.isExpired now then
    if st.token.refresh_token ≠ "" then
      match refreshAccessTokenTX now tok st with
      | (.ok _, st1) => (.ok (), st1)
      | (.error e, st1) => (.error e, st1)
    else
      match getAccessTokenTX now tok st with
      | (.ok _, st1) => (.ok (), st1)
      | (.error e, st1) => (.error e, st1)
  else (.ok (), st)

/-- Embedding of `CustomerApi.request` (truex_sharing variant, lines 260-306):
after a falsy success flag, if the error code is the sentinel 1010 (as number
or string), force `get_access_token`, rebuild the headers, retry the same
call once, and raise TrueXAPIError if the retry is still unsuccessful; for
any other error code the failure response itself is RETURNED to the caller
(logged, not raised), with no retry. -/
def requestTX {ρ : Type} (now : Int) (tok : Nat → NetRes TokenResult)
    (biz : Nat → NetRes ρ) (st : ApiStTX) : Except Err (Resp ρ) × ApiStTX :=
  match ensureTokenTX now tok st with
  | (.error e, st1) => (.error e, st1)
  | (.ok _, st1) =>
    match takeBizTX biz st1 with
    | (.throw e, st2) => (.error e, st2)
    | (.ok response, st2) =>
      if response.success.truthy then (.ok response, st2)
      else
        if response.code = JVal.jnum 1010 ∨ response.code = JVal.jstr "1010" then
          match getAccessTokenTX now tok st2 with
          | (.error e, st3) => (.error e, st3)
          | (.ok _, st3) =>
            match takeBizTX biz st3 with
            | (.throw e, st4) => (.error e, st4)
            | (.ok response2, st4) =>
              if response2.success.truthy then (.ok response2, st4)
              else (.error (.apiError response2.code response2.msg), st4)
        else (.ok response, st2)

/-! ## Part 6: the device model and the Manager -/

/-- Python dict assignment `d[k] = v` on an association-list dict: overwrite
in place (keeping the key's position), else append. -/
def alSet {α : Type} (m : List (String × α)) (k : String) (v : α) :
    List (String × α) :=
  match m with
  | [] => [(k, v)]
  | (k0, v0) :: rest => if k0 = k then (k, v) :: rest else (k0, v0) :: alSet rest k v

/-- Python dict lookup `d.get(k)` on an association-list dict. -/
def alGet {α : Type} (m : List (String × α)) (k : String) : Option α :=
  match m with
  | [] => none
  | (k0, v0) :: rest => if k0 = k then some v0 else alGet rest k

/-- One `{"code": ..., "value": ...}` item of a status array; the `.get`
defaults of the reading code are the field defaults. -/
structure StatusItem where
  code : String := ""
  value : JVal := .null
deriving DecidableEq

/-- Wire form of the `values` field of one specification entry: either a
JSON-encoded string or an already-structured object (distinguished by the
`isinstance(values, str)` test). Structured constraint objects are modeled as
flat string-keyed objects of scalars. -/
inductive WireVals where
  | wstr (s : String)
  | wobj (v : List (String × JVal))
deriving DecidableEq

/-- One entry of `result["functions"]` or `result["status"]` of a
specification response; the default of `func.get("values", "\x7b\x7d")` is the
two-character JSON-empty-object string. -/
structure SpecEntry where
  code : String := ""
  type : String := ""
  values : WireVals := .wstr "\x7b\x7d"
deriving DecidableEq

/-- Payload of a specification response. -/
structure SpecResult where
  functions : List SpecEntry := []
  status : List SpecEntry := []
deriving DecidableEq

/-- Cached capability entry `{"type": ..., "values": parsed}` stored into
`device.functions[code]` / `device.status_range[code]`. -/
structure FuncSpec where
  type : String := ""
  values : List (String × JVal) := []
deriving DecidableEq

/-- One entry of the device-list response: the keys `from_api_response` and
the status-seeding loop read, with their `.get` defaults. -/
structure DevData where
  id : String := ""
  name : String := ""
  category : String := ""
  product_id : String := ""
  product_name : String := ""
  online : Bool := false
  icon : String := ""
  ip : String := ""
  time_zone : String := ""
  local_key : String := ""
  sub : Bool := false
  uuid : String := ""
  active_time : Int := 0
  create_time : Int := 0
  update_time : Int := 0
  status : List StatusItem := []
deriving DecidableEq

/-- Modelled from the spec: the module
custom_components/truex/truex_sharing/device.py (imported by manager.py for
`CustomerDevice`) is absent from src/; this record follows the in-repo
sibling implementation truex_sharing/device.py (dataclass `CustomerDevice`,
lines 30-80) and the spec's DeviceRecord (§3): identity and metadata fields,
with `status`, `functions`, `status_range` empty until populated. -/
structure CustomerDevice where
  id : String := ""
  name : String := ""
  category : String := ""
  product_id : String := ""
  product_name : String := ""
  online : Bool := false
  icon : String := ""
  ip : String := ""
  time_zone : String := ""
  local_key : String := ""
  sub : Bool := false
  uuid : String := ""
  active_time : Int := 0
  create_time : Int := 0
  update_time : Int := 0
  status : List (String × JVal) := []
  functions : List (String × FuncSpec) := []
  status_range : List (String × FuncSpec) := []
  set_up : Bool := false
deriving DecidableEq

/-- Modelled from the spec: `CustomerDevice.from_api_response` following the
sibling truex_sharing/device.py (lines 61-80) — copy the identity/metadata
keys; runtime maps start empty. -/
def CustomerDevice.fromApiResponse (d : DevData) : CustomerDevice :=
  { id := d.id, name := d.name, category := d.category, product_id := d.product_id
    product_name := d.product_name, online := d.online, icon := d.icon, ip := d.ip
    time_zone := d.time_zone, local_key := d.local_key, sub := d.sub, uuid := d.uuid
    active_time := d.active_time, create_time := d.create_time, update_time := d.update_time }

/-- Merge a status array into a status dict: every `{code, value}` item with a
non-empty (truthy) code overwrites that code, other codes are untouched
(manager.py lines 64-69 and 134-139). -/
def mergeStatus (base : List (String × JVal)) (items : List StatusItem) :
    List (String × JVal) :=
  items.foldl (fun s it => if it.code = "" then s else alSet s it.code it.value) base

/-- One device-list entry turned into a fresh registry record: a new
CustomerDevice seeded with the entry's embedded status array
(manager.py lines 61-69). -/
def seedDevice (dd : DevData) : CustomerDevice :=
  let device := CustomerDevice.fromApiResponse dd
  { device with status := mergeStatus device.status dd.status }

/-- Registry-insertion step of the device-list loop (manager.py lines 56-71):
entries with an empty id are skipped, all others insert or replace under
their id. -/
def insertSeed (m : List (String × CustomerDevice)) (dd : DevData) :
    List (String × CustomerDevice) :=
  if dd.id = "" then m else alSet m dd.id (seedDevice dd)

/-- Embedding of `Manager._fetch_device_specifications` (manager.py lines
77-126) acting on the one device it mutates. The outcome of
`await self.api.get_device_specifications(device.id)` enters as `res`;
`json.loads` enters as the oracle `jsonLoads` (`none` = decode failure,
yielding an empty constraints object for that entry only). On an exception
the device is returned unchanged (the `except Exception` handler only logs);
on a non-success response it is likewise returned unchanged. -/
def fetchDeviceSpecifications (jsonLoads : String → Option (List (String × JVal)))
    (res : Except Err (Resp SpecResult)) (device : CustomerDevice) : CustomerDevice :=
  match res with
  | .error _ => device
  | .ok response =>
    if ¬ response.success.truthy then device
    else
      let result := response.result.getD {}
      let device1 := result.functions.foldl (fun dev func =>
        if func.code = "" then dev
        else
          let parsed := match func.values with
            | .wstr s => (jsonLoads s).getD []
            | .wobj v => v
          { dev with functions := alSet dev.functions func.code ⟨func.type, parsed⟩ }) device
      result.status.foldl (fun dev sr =>
        if sr.code = "" then dev
        else
          let parsed := match sr.values with
            | .wstr s => (jsonLoads s).getD []
            | .wobj v => v
          { dev with status_range := alSet dev.status_range sr.code ⟨sr.type, parsed⟩ }) device1

/-- Embedding of `Manager.update_device_cache` (manager.py lines 46-75): a
raising device-list call propagates; a response with falsy success is logged
and the method RETURNS NORMALLY leaving the map untouched; otherwise every
list entry with a non-empty id becomes a fresh CustomerDevice seeded with the
entry's status array and is inserted (or replaces the id's entry) in the map;
finally the specification fetch runs for every device now in the map, each
outcome entering through the per-device oracle `getSpecs` keyed by the
device's id. -/
def updateDeviceCache (getUserDevices : Except Err (Resp (List DevData)))
    (getSpecs : String → Except Err (Resp SpecResult))
    (jsonLoads : String → Option (List (String × JVal)))
    (device_map : List (String × CustomerDevice)) :
    Except Err Unit × List (String × CustomerDevice) :=
  match getUserDevices with
  | .error e => (.error e, device_map)
  | .ok response =>
    if ¬ response.success.truthy then (.ok (), device_map)
    else
      let devices_data := response.result.getD []
      let m1 := devices_data.foldl insertSeed device_map
      (.ok (), m1.map (fun p => (p.1, fetchDeviceSpecifications jsonLoads (getSpecs p.2.id) p.2)))

/-- Outcome of one device's status poll applied to that device
(manager.py lines 130-148): an exception or a non-success response leaves the
device untouched; a success response merges the returned items (the listener
notification has no effect on the state modeled here). -/
def applyStatusPoll (res : Except Err (Resp (List StatusItem)))
    (device : CustomerDevice) : CustomerDevice :=
  match res with
  | .error _ => device
  | .ok response =>
    if response.success.truthy then
      { device with status := mergeStatus device.status (response.result.getD []) }
    else device

/-- Embedding of `Manager.update_device_status` (manager.py lines 128-148):
poll every device of the map in turn, each outcome entering through the
per-device oracle `getStatus` keyed by the map key; per-device failures are
caught inside the loop, so every device is processed. -/
def updateDeviceStatus (getStatus : String → Except Err (Resp (List StatusItem)))
    (device_map : List (String × CustomerDevice)) :
    List (String × CustomerDevice) :=
  device_map.map (fun p => (p.1, applyStatusPoll (getStatus p.1) p.2))

/-- Embedding of `Manager.send_commands` (manager.py lines 150-165) given the
outcome of `await self.api.send_device_commands(...)`: any exception yields
False; otherwise the server's success flag decides the result. -/
def sendCommandsMgr (res : Except Err (Resp Unit)) : Bool :=
  match res with
  | .error _ => false
  | .ok response => if response.success.truthy then true else false

/-- Manager-level state: the api client state plus the device registry. -/
structure MgrStCC where
  api : ApiStCC
  device_map : List (String × CustomerDevice)
deriving DecidableEq

/-- `Manager.send_commands` composed with the full custom_components request
chain. The method body touches only `self.api`; manager.py lines 150-165
contain no read or write of `self.device_map`, so the registry passes
through. -/
def sendCommandsFull (nowMs : Int) (tok : Nat → NetRes TokenResult)
    (biz : Nat → BizRes Unit) (st : MgrStCC) : Bool × MgrStCC :=
  let r := requestCC nowMs tok biz st.api
  (sendCommandsMgr r.1, { api := r.2, device_map := st.device_map })

/-! ## Part 7: cooperative interleaving of _refresh_access_token -/

/-- Suspension points of one task executing `_refresh_access_token`
(custom_components variant, lines 296-363). Every `await` of a network
response is a suspension point at which another task may run. -/
inductive RLoc where
  | start
  | awaitRefresh
  | awaitAcqA
  | awaitAcqB
  | done
  | failed
deriving DecidableEq

/-- State shared by all tasks of one CustomerApi: the `_refreshing_token`
guard flag, the token, and the transport position (network calls answered so
far, in global order). -/
structure CoopSt where
  flag : Bool
  token : TokenInfoCC
  tokCalls : Nat
deriving DecidableEq

/-- One step of one task. At `start` the guard runs: a set flag returns
immediately (line 298-299), otherwise the flag is set and the refresh call
issued. Stepping a suspended task consumes the response of its pending call
and runs to the next suspension point or to the end: a successful response
replaces the token and the `finally` clause clears the flag; a failed refresh
falls back to `get_access_token` (`awaitAcqA` from the else branch,
`awaitAcqB` from the except handler); a failed final acquire propagates
(`failed`), the flag still cleared by `finally`. -/
def rstep (tok : Nat → NetRes TokenResult) (s : CoopSt) : RLoc → CoopSt × RLoc
  | .start =>
    if s.flag then (s, .done)
    else ({ s with flag := true }, .awaitRefresh)
  | .awaitRefresh =>
    let res := tok s.tokCalls
    let s1 := { s with tokCalls := s.tokCalls + 1 }
    match res with
    | .throw _ => (s1, .awaitAcqB)
    | .ok response =>
      if response.success.truthy then
        ({ s1 with token := TokenInfoCC.ofResp response, flag := false }, .done)
      else (s1, .awaitAcqA)
  | .awaitAcqA =>
    let res := tok s.tokCalls
    let s1 := { s with tokCalls := s.tokCalls + 1 }
    match res with
    | .throw _ => (s1, .awaitAcqB)
    | .ok response =>
      if response.success.truthy then
        ({ s1 with token := TokenInfoCC.ofResp response, flag := false }, .done)
      else (s1, .awaitAcqB)
  | .awaitAcqB =>
    let res := tok s.tokCalls
    let s1 := { s with tokCalls := s.tokCalls + 1 }
    match res with
    | .throw _ => ({ s1 with flag := false }, .failed)
    | .ok response =>
      if response.success.truthy then
        ({ s1 with token := TokenInfoCC.ofResp response, flag := false }, .done)
      else ({ s1 with flag := false }, .failed)
  | .done => (s, .done)
  | .failed => (s, .failed)

/-- Two concurrent callers of `_refresh_access_token` on one shared client:
the shared state, each task's location, and — for the observation the claim
is about — the token each task saw at the moment its call returned, i.e. the
token its caller proceeds with. -/
structure CoopRun where
  sh : CoopSt
  locA : RLoc
  locB : RLoc
  tokenAtDoneA : Option TokenInfoCC
  tokenAtDoneB : Option TokenInfoCC
deriving DecidableEq

/-- Step one task (`false` = task A, `true` = task B); when the stepped task
reaches `done` for the first time, record the token it returns with. -/
def coopStep (tok : Nat → NetRes TokenResult) (r : CoopRun) (b : Bool) : CoopRun :=
  if b then
    let s := rstep tok r.sh r.locB
    { r with
      sh := s.1
      locB := s.2
      tokenAtDoneB :=
        if s.2 = RLoc.done ∧ r.locB ≠ RLoc.done then some s.1.token else r.tokenAtDoneB }
  else
    let s := rstep tok r.sh r.locA
    { r with
      sh := s.1
      locA := s.2
      tokenAtDoneA :=
        if s.2 = RLoc.done ∧ r.locA ≠ RLoc.done then some s.1.token else r.tokenAtDoneA }

/-- Run a schedule (list of task choices) from an initial configuration. -/
def coopRun (tok : Nat → NetRes TokenResult) (sched : List Bool) (r : CoopRun) : CoopRun :=
  sched.foldl (coopStep tok) r

/-- Value of the last status item of a poll response that carries code `c`
(if any): what the merge loop leaves at `c`. -/
def pollValue (c : String) : List StatusItem → Option JVal
  | [] => none
  | it :: rest =>
    match pollValue c rest with
    | some v => some v
    | none => if it.code = c then some it.value else none

/-! ## Part 8: theorems -/

/-- Reflexivity of `lexLe`. -/
theorem lexLe_refl (a : List Char) : lexLe a a = true := by
  induction a with
  | nil => rfl
  | cons x xs ih => simp [lexLe, ih]

/-- Totality of `lexLe`. -/
theorem lexLe_total (a b : List Char) : lexLe a b = true ∨ lexLe b a = true := by
  induction a generalizing b with
  | nil => exact Or.inl rfl
  | cons x xs ih =>
    cases b with
    | nil => exact Or.inr rfl
    | cons y ys =>
      rcases lt_trichotomy x y with hxy | hxy | hxy
      · exact Or.inl (by simp [lexLe, hxy])
      · subst hxy
        rcases ih ys with h | h
        · exact Or.inl (by simp [lexLe, h])
        · exact Or.inr (by simp [lexLe, h])
      · exact Or.inr (by simp [lexLe, hxy])

/-- Transitivity of `lexLe`. -/
theorem lexLe_trans {a b c : List Char} (h1 : lexLe a b = true) (h2 : lexLe b c = true) :
    lexLe a c = true := by
  induction a generalizing b c with
  | nil => rfl
  | cons x xs ih =>
    cases b with
    | nil => simp [lexLe] at h1
    | cons y ys =>
      cases c with
      | nil => simp [lexLe] at h2
      | cons z zs =>
        simp only [lexLe] at h1 h2 ⊢
        rcases lt_trichotomy x y with hxy | hxy | hxy
        · rcases lt_trichotomy y z with hyz | hyz | hyz
          · simp [lt_trans hxy hyz]
          · subst hyz; simp [hxy]
          · simp [hyz, not_lt_of_lt hyz] at h2
        · subst hxy
          rcases lt_trichotomy x z with hyz | hyz | hyz
          · simp [hyz]
          · subst hyz
            simp [lt_irrefl] at h1 h2 ⊢
            exact ih h1 h2
          · simp [hyz, not_lt_of_lt hyz] at h2
        · simp [hxy, not_lt_of_lt hxy] at h1

/-- Antisymmetry of `lexLe`. -/
theorem lexLe_antisymm {a b : List Char} (h1 : lexLe a b = true) (h2 : lexLe b a = true) :
    a = b := by
  induction a generalizing b with
  | nil =>
    cases b with
    | nil => rfl
    | cons y ys => simp [lexLe] at h2
  | cons x xs ih =>
    cases b with
    | nil => simp [lexLe] at h1
    | cons y ys =>
      simp only [lexLe] at h1 h2
      rcases lt_trichotomy x y with hxy | hxy | hxy
      · simp [hxy, not_lt_of_lt hxy] at h2
      · subst hxy
        simp [lt_irrefl] at h1 h2
        rw [ih h1 h2]
      · simp [hxy, not_lt_of_lt hxy] at h1

/-- Totality instance for the string order used by `sortStrs`. -/
@[instance] theorem strLeIsTotal : IsTotal String (fun a b => strLe a b = true) :=
  ⟨fun a b => lexLe_total a.data b.data⟩

/-- Transitivity instance for the string order used by `sortStrs`. -/
@[instance] theorem strLeIsTrans : IsTrans String (fun a b => strLe a b = true) :=
  ⟨fun _ _ _ h1 h2 => lexLe_trans h1 h2⟩

/-- Antisymmetry instance for the string order used by `sortStrs`. -/
@[instance] theorem strLeIsAntisymm : IsAntisymm String (fun a b => strLe a b = true) :=
  ⟨fun a b h1 h2 => by
    have := lexLe_antisymm h1 h2
    cases a; cases b; exact congrArg String.mk this⟩

/-- The sort used by the signer returns a permutation of its input. -/
theorem sortStrs_perm (l : List String) : (sortStrs l).Perm l :=
  List.perm_insertionSort (fun a b => strLe a b = true) l

/-- The sort used by the signer returns a sorted list. -/
theorem sortStrs_sorted (l : List String) :
    List.Sorted (fun a b => strLe a b = true) (sortStrs l) :=
  List.sorted_insertionSort (fun a b => strLe a b = true) l

/-- Sorting is a function of the multiset of elements: permuted inputs sort
to the same list. -/
theorem sortStrs_eq_of_perm {l1 l2 : List String} (h : l1.Perm l2) :
    sortStrs l1 = sortStrs l2 :=
  List.eq_of_perm_of_sorted
    ((sortStrs_perm l1).trans (h.trans (sortStrs_perm l2).symm))
    (sortStrs_sorted l1) (sortStrs_sorted l2)

/-- Association-list lookup is invariant under permutation when keys are
unique (the dict model: a Python dict never has duplicate keys). -/
theorem lookup_eq_of_perm (k : String) {l1 l2 : List (String × String)}
    (h : l1.Perm l2) (hnd : (l1.map Prod.fst).Nodup) :
    l1.lookup k = l2.lookup k := by
  induction h with
  | nil => rfl
  | cons x p ih =>
    simp only [List.map_cons, List.nodup_cons] at hnd
    simp only [List.lookup]
    cases hx : (k == x.1) with
    | true => rfl
    | false => exact ih hnd.2
  | swap x y l =>
    simp only [List.map_cons, List.nodup_cons, List.mem_cons] at hnd
    simp only [List.lookup]
    cases hx : (k == x.1) with
    | true =>
      cases hy : (k == y.1) with
      | true =>
        exfalso
        have hx1 : k = x.1 := by simpa using hx
        have hy1 : k = y.1 := by simpa using hy
        exact hnd.1 (Or.inl (hy1 ▸ hx1 ▸ rfl))
      | false => rfl
    | false => cases hy : (k == y.1) with
      | true => rfl
      | false => rfl
  | trans p1 p2 ih1 ih2 =>
    exact (ih1 hnd).trans (ih2 (((p1.map Prod.fst).nodup_iff).mp hnd))

/-- Joining a list whose head is a nonempty string yields a nonempty string. -/
theorem joinAmp_pos (x : String) (xs : List String) (hx : 0 < x.length) :
    0 < (joinAmp (x :: xs)).length := by
  cases xs with
  | nil => simpa [joinAmp] using hx
  | cons y ys =>
    simp only [joinAmp, String.length_append]
    omega

/-- A `key=value` piece is never the empty string. -/
theorem piece_pos (k v : String) : 0 < (k ++ "=" ++ v).length := by
  simp only [String.length_append]
  have : ("=" : String).length = 1 := rfl
  omega

/-- The two signer variants build the same canonical string: the truex_sharing
variant tests emptiness of the joined query string, which is empty exactly
when the query dict is empty. -/
theorem stringToSignTX_eq_spec (m p b : String) (q : List (String × String)) :
    stringToSignTX m p q b = canonicalRequestStringSpec m p q b := by
  by_cases hq : q = []
  · subst hq; rfl
  · obtain ⟨x, xs, hx⟩ : ∃ x xs, q = x :: xs := by
      cases q with
      | nil => exact absurd rfl hq
      | cons a l => exact ⟨a, l, rfl⟩
    have hkeys : ∃ y ys, sortStrs (q.map Prod.fst) = y :: ys := by
      have hlen : (sortStrs (q.map Prod.fst)).length = (q.map Prod.fst).length :=
        (sortStrs_perm (q.map Prod.fst)).length_eq
      cases hs : sortStrs (q.map Prod.fst) with
      | nil => rw [hs, hx] at hlen; simp at hlen
      | cons y ys => exact ⟨y, ys, rfl⟩
    obtain ⟨y, ys, hys⟩ := hkeys
    have hjoin : joinAmp ((sortStrs (q.map Prod.fst)).map
        (fun k => k ++ "=" ++ dictGet q k)) ≠ "" := by
      rw [hys]
      intro hcon
      have := joinAmp_pos (y ++ "=" ++ dictGet q y)
        (ys.map (fun k => k ++ "=" ++ dictGet q k)) (piece_pos y (dictGet q y))
      rw [List.map_cons] at hcon
      rw [hcon] at this
      simp at this
    simp only [stringToSignTX, canonicalRequestStringSpec, if_neg hq, if_neg hjoin]

/-- Setting key `k` makes lookup at `k` return the new value. -/
theorem alGet_alSet_eq {α : Type} (m : List (String × α)) (k : String) (v : α) :
    alGet (alSet m k v) k = some v := by
  induction m with
  | nil => simp [alSet, alGet]
  | cons p rest ih =>
    obtain ⟨k0, v0⟩ := p
    by_cases h : k0 = k
    · simp [alSet, alGet, h]
    · simp [alSet, alGet, h, ih]

/-- Setting key `k` leaves lookup at any other key unchanged. -/
theorem alGet_alSet_ne {α : Type} (m : List (String × α)) (k k2 : String) (v : α)
    (h : k ≠ k2) : alGet (alSet m k v) k2 = alGet m k2 := by
  induction m with
  | nil => simp [alSet, alGet, h]
  | cons p rest ih =>
    obtain ⟨k0, v0⟩ := p
    by_cases h0 : k0 = k
    · subst h0; simp [alSet, alGet, h]
    · simp [alSet, alGet, h0, ih]

/-- Lookup through a per-entry transformation keyed by the map key. -/
theorem alGet_mapEntries {α β : Type} (f : String → α → β) (l : List (String × α))
    (k : String) :
    alGet (l.map (fun p => (p.1, f p.1 p.2))) k = (alGet l k).map (f k) := by
  induction l with
  | nil => rfl
  | cons p rest ih =>
    by_cases h : p.1 = k
    · subst h; simp [alGet]
    · simp [alGet, h, ih]

/-- Lookup through a per-entry transformation of the values only. -/
theorem alGet_mapValues {α β : Type} (g : α → β) (l : List (String × α)) (k : String) :
    alGet (l.map (fun p => (p.1, g p.2))) k = (alGet l k).map g := by
  induction l with
  | nil => rfl
  | cons p rest ih =>
    by_cases h : p.1 = k
    · subst h; simp [alGet]
    · simp [alGet, h, ih]

/-- Characterization of the status merge: at any non-empty code, the merged
dict holds the value of the last response item with that code when one
exists, and the previous value otherwise. -/
theorem alGet_mergeStatus (items : List StatusItem) (base : List (String × JVal))
    (c : String) (hc : c ≠ "") :
    alGet (mergeStatus base items) c =
      (match pollValue c items with
       | some v => some v
       | none => alGet base c) := by
  induction items generalizing base with
  | nil => rfl
  | cons it rest ih =>
    have hstep : mergeStatus base (it :: rest) =
        mergeStatus (if it.code = "" then base else alSet base it.code it.value) rest := rfl
    rw [hstep, ih]
    cases hpv : pollValue c rest with
    | some v => simp [pollValue, hpv]
    | none =>
      simp only [pollValue, hpv]
      by_cases hcode : it.code = c
      · subst hcode
        rw [if_neg hc, if_pos rfl]
        simp [alGet_alSet_eq]
      · rw [if_neg hcode]
        by_cases hempty : it.code = ""
        · simp [hempty]
        · simp [hempty, alGet_alSet_ne base it.code c it.value hcode]

/-- C9: deserializing the serialized token snapshot restores a token equal to
the original for both client variants — every field (access token, refresh
token, uid, and the expiry data) survives the `to_dict`/`from_dict`
round-trip. -/
theorem claim_C9_token_roundtrip :
    (∀ t : TokenInfoCC, TokenInfoCC.fromDict (TokenInfoCC.toDict t) = t) ∧
    (∀ t : TokenInfoTX, TokenInfoTX.fromDict (TokenInfoTX.toDict t) = t) :=
  ⟨fun _ => rfl, fun _ => rfl⟩

/-- C2 counterexample: a truex_sharing token acquired at time 0 with
expire_time 100 is NOT reported expired at the instant 40 = 0 + 100 − 60,
although that instant is at (not past) expiry minus the 60-second buffer and
the claim requires "at or past" to report expired. -/
theorem claim_C2_counterexample :
    TokenInfoTX.isExpired ⟨"tok", "", 100, "", 0⟩ 40 = false ∧
    (0 + 100 - 60 : Int) ≤ 40 := by
  constructor
  · decide
  · decide

/-- C2 (amended): the expiry predicate is exact in both variants — the
custom_components variant reports expired iff the access token is empty or
now_ms is at-or-past expire_at − 60000 (ms); the truex_sharing variant iff
the access token is empty or the clock is STRICTLY past
token_acquired_at + expire_time − 60 (s), so the boundary instant itself is
not yet expired there; in both variants a token expiring 30 seconds from now
is expired and one expiring 120 seconds from now is not. -/
theorem claim_C2_isExpired_characterization :
    (∀ (t : TokenInfoCC) (now : Int),
      t.isExpired now = true ↔ (t.access_token = "" ∨ t.expire_at - 60000 ≤ now)) ∧
    (∀ (t : TokenInfoTX) (now : Int),
      t.isExpired now = true ↔
        (t.access_token = "" ∨ t.token_acquired_at + t.expire_time - 60 < now)) ∧
    (∀ (t : TokenInfoCC) (now : Int), t.access_token ≠ "" → t.expire_at = now + 30000 →
      t.isExpired now = true) ∧
    (∀ (t : TokenInfoCC) (now : Int), t.access_token ≠ "" → t.expire_at = now + 120000 →
      t.isExpired now = false) ∧
    (∀ (t : TokenInfoTX) (now : Int), t.access_token ≠ "" →
      t.token_acquired_at + t.expire_time = now + 30 → t.isExpired now = true) ∧
    (∀ (t : TokenInfoTX) (now : Int), t.access_token ≠ "" →
      t.token_acquired_at + t.expire_time = now + 120 → t.isExpired now = false) := by
  refine ⟨?_, ?_, ?_, ?_, ?_, ?_⟩
  · intro t now
    by_cases h : t.access_token = "" <;> simp [TokenInfoCC.isExpired, h]
  · intro t now
    by_cases h : t.access_token = "" <;> simp [TokenInfoTX.isExpired, h]
  · intro t now h hexp
    simp [TokenInfoCC.isExpired, h, hexp]
  · intro t now h hexp
    simp [TokenInfoCC.isExpired, h, hexp]
  · intro t now h hexp
    simp only [TokenInfoTX.isExpired, if_neg h, decide_eq_true_eq]
    omega
  · intro t now h hexp
    simp only [TokenInfoTX.isExpired, if_neg h, decide_eq_false_iff_not]
    omega

/-- C2 witness: the characterization applied at concrete tokens — a
custom_components token expiring in 30 s is expired and one expiring in 120 s
is not; same for truex_sharing tokens. -/
theorem claim_C2_isExpired_characterization_witness :
    TokenInfoCC.isExpired ⟨"tok", "", "", 0, 30000⟩ 0 = true ∧
    TokenInfoCC.isExpired ⟨"tok", "", "", 0, 120000⟩ 0 = false ∧
    TokenInfoTX.isExpired ⟨"tok", "", 30, "", 0⟩ 0 = true ∧
    TokenInfoTX.isExpired ⟨"tok", "", 120, "", 0⟩ 0 = false :=
  ⟨claim_C2_isExpired_characterization.2.2.1 ⟨"tok", "", "", 0, 30000⟩ 0
      (by decide) (by decide),
   claim_C2_isExpired_characterization.2.2.2.1 ⟨"tok", "", "", 0, 120000⟩ 0
      (by decide) (by decide),
   claim_C2_isExpired_characterization.2.2.2.2.1 ⟨"tok", "", 30, "", 0⟩ 0
      (by decide) (by decide),
   claim_C2_isExpired_characterization.2.2.2.2.2 ⟨"tok", "", 120, "", 0⟩ 0
      (by decide) (by decide)⟩

/-- C4: both signer variants produce exactly the canonical string the spec
describes — METHOD, newline, the SHA-256 hex digest of the body (the empty
body hashed like any other, never skipped), newline, the empty signed-headers
line, newline, then the path with the lexicographically key-sorted query
appended after a question mark when the query is non-empty — and permuting
the insertion order of a duplicate-free query never changes the output. -/
theorem claim_C4_string_to_sign (m p b : String) (q q2 : List (String × String))
    (hnd : (q.map Prod.fst).Nodup) (hperm : q.Perm q2) :
    stringToSign m p q b = canonicalRequestStringSpec m p q b ∧
    stringToSignTX m p q b = canonicalRequestStringSpec m p q b ∧
    stringToSign m p q2 b = stringToSign m p q b := by
  refine ⟨rfl, stringToSignTX_eq_spec m p b q, ?_⟩
  have hdict : ∀ k, dictGet q2 k = dictGet q k := by
    intro k
    unfold dictGet
    rw [lookup_eq_of_perm k hperm hnd]
  have hkeys : sortStrs (q2.map Prod.fst) = sortStrs (q.map Prod.fst) :=
    sortStrs_eq_of_perm (hperm.map Prod.fst).symm
  by_cases hq : q = []
  · subst hq
    have hq2 : q2 = [] := hperm.symm.eq_nil
    subst hq2
    rfl
  · have hq2 : q2 ≠ [] := by
      intro h
      subst h
      exact hq hperm.eq_nil
    have hfun : (fun k => k ++ "=" ++ dictGet q2 k) = (fun k => k ++ "=" ++ dictGet q k) :=
      funext fun k => by rw [hdict k]
    simp only [stringToSign, if_neg hq, if_neg hq2]
    rw [hkeys, hfun]

/-- C4 witness: the theorem applied at a concrete duplicate-free two-key query
and its reversal, plus the fully evaluated canonical string of the token
endpoint, whose body hash is the SHA-256 digest of the empty string. -/
theorem claim_C4_string_to_sign_witness :
    (([("grant_type", "1"), ("a", "2")].map Prod.fst).Nodup ∧
      [("grant_type", "1"), ("a", "2")].Perm [("a", "2"), ("grant_type", "1")]) ∧
    (stringToSign "GET" "/v1.0/token" [("grant_type", "1"), ("a", "2")] "" =
        canonicalRequestStringSpec "GET" "/v1.0/token" [("grant_type", "1"), ("a", "2")] "" ∧
      stringToSignTX "GET" "/v1.0/token" [("grant_type", "1"), ("a", "2")] "" =
        canonicalRequestStringSpec "GET" "/v1.0/token" [("grant_type", "1"), ("a", "2")] "" ∧
      stringToSign "GET" "/v1.0/token" [("a", "2"), ("grant_type", "1")] "" =
        stringToSign "GET" "/v1.0/token" [("grant_type", "1"), ("a", "2")] "") ∧
    stringToSign "GET" "/v1.0/token" [("grant_type", "1")] "" =
      "GET\ne3b0c44298fc1c149afbf4c8996fb92427ae41e4649b934ca495991b7852b855\n\n/v1.0/token?grant_type=1" :=
  ⟨⟨by decide, by decide⟩,
   claim_C4_string_to_sign "GET" "/v1.0/token" "" [("grant_type", "1"), ("a", "2")]
     [("a", "2"), ("grant_type", "1")] (by decide) (by decide),
   by decide⟩

/-- C6: for every device of the registry whose status poll succeeds,
update_device_status replaces that device by the same device with exactly the
response's codes overwritten in its status mapping — each set to the returned
value (the last returned value if a code repeats), every other code's value
untouched — and the claim's example merge of switch_1=true into a status of
switch_1=false, bright_value=500 yields switch_1=true, bright_value=500. -/
theorem claim_C6_update_device_status
    (getStatus : String → Except Err (Resp (List StatusItem)))
    (dmap : List (String × CustomerDevice)) (id : String) (dev : CustomerDevice)
    (r : Resp (List StatusItem)) (c : String)
    (hdev : alGet dmap id = some dev)
    (hr : getStatus id = .ok r) (hs : r.success.truthy = true) (hc : c ≠ "") :
    alGet (updateDeviceStatus getStatus dmap) id =
      some { dev with status := mergeStatus dev.status (r.result.getD []) } ∧
    alGet (mergeStatus dev.status (r.result.getD [])) c =
      (match pollValue c (r.result.getD []) with
       | some v => some v
       | none => alGet dev.status c) ∧
    mergeStatus [("switch_1", JVal.jbool false), ("bright_value", JVal.jnum 500)]
      [⟨"switch_1", JVal.jbool true⟩] =
      [("switch_1", JVal.jbool true), ("bright_value", JVal.jnum 500)] := by
  refine ⟨?_, alGet_mergeStatus _ _ _ hc, by decide⟩
  have hmap : updateDeviceStatus getStatus dmap =
      dmap.map (fun p => (p.1, applyStatusPoll (getStatus p.1) p.2)) := rfl
  rw [hmap, alGet_mapEntries (fun k d => applyStatusPoll (getStatus k) d) dmap id, hdev]
  simp [applyStatusPoll, hr, hs]

/-- C6 witness: the theorem applied at a one-device registry with the claim's
own example poll response; the merged registry entry is evaluated. -/
theorem claim_C6_update_device_status_witness :
    alGet (updateDeviceStatus
        (fun _ => .ok { success := JVal.jbool true,
                        result := some [⟨"switch_1", JVal.jbool true⟩] })
        [("d1", { id := "d1",
                  status := [("switch_1", JVal.jbool false), ("bright_value", JVal.jnum 500)] })])
      "d1" =
      some { id := "d1",
             status := [("switch_1", JVal.jbool true), ("bright_value", JVal.jnum 500)] } :=
  (claim_C6_update_device_status
    (fun _ => .ok { success := JVal.jbool true,
                    result := some [⟨"switch_1", JVal.jbool true⟩] })
    [("d1", { id := "d1",
              status := [("switch_1", JVal.jbool false), ("bright_value", JVal.jnum 500)] })]
    "d1"
    { id := "d1", status := [("switch_1", JVal.jbool false), ("bright_value", JVal.jnum 500)] }
    { success := JVal.jbool true, result := some [⟨"switch_1", JVal.jbool true⟩] }
    "switch_1" (by decide) rfl (by decide) (by decide)).1

/-- Inserting device-list entries whose ids all differ from `k` leaves lookup
at `k` unchanged. -/
theorem alGet_insertSeed_notmem (devices : List DevData) :
    ∀ (m : List (String × CustomerDevice)) (k : String),
      (∀ d ∈ devices, d.id ≠ k) →
      alGet (devices.foldl insertSeed m) k = alGet m k := by
  induction devices with
  | nil => intro m k _; rfl
  | cons d rest ih =>
    intro m k h
    have hd : d.id ≠ k := h d (List.mem_cons_self d rest)
    have hrest : ∀ d2 ∈ rest, d2.id ≠ k := fun d2 hm => h d2 (List.mem_cons_of_mem d hm)
    show alGet (rest.foldl insertSeed (insertSeed m d)) k = alGet m k
    rw [ih (insertSeed m d) k hrest]
    unfold insertSeed
    by_cases hid : d.id = ""
    · simp [hid]
    · simp [hid, alGet_alSet_ne m d.id k (seedDevice d) hd]

/-- After the device-list loop, every entry with a non-empty id (ids being
duplicate-free) is present in the registry as its seeded record. -/
theorem alGet_insertSeed_mem (devices : List DevData) :
    ∀ (m : List (String × CustomerDevice)) (dd : DevData),
      (devices.map DevData.id).Nodup → dd ∈ devices → dd.id ≠ "" →
      alGet (devices.foldl insertSeed m) dd.id = some (seedDevice dd) := by
  induction devices with
  | nil => intro m dd _ hmem _; cases hmem
  | cons d rest ih =>
    intro m dd hnd hmem hid
    simp only [List.map_cons, List.nodup_cons] at hnd
    rcases List.mem_cons.mp hmem with heq | hmem2
    · subst heq
      show alGet (rest.foldl insertSeed (insertSeed m dd)) dd.id = _
      have hrest : ∀ d2 ∈ rest, d2.id ≠ dd.id := by
        intro d2 h2 hcon
        exact hnd.1 (hcon ▸ List.mem_map_of_mem DevData.id h2)
      rw [alGet_insertSeed_notmem rest (insertSeed m dd) dd.id hrest]
      unfold insertSeed
      rw [if_neg hid]
      exact alGet_alSet_eq m dd.id (seedDevice dd)
    · exact ih (insertSeed m d) dd hnd.2 hmem2 hid

/-- C7: per-device failures are isolated in BOTH multi-device iterations.
During cache rebuild: given a successful device list with duplicate-free
non-empty ids, the rebuilt registry contains EVERY listed device, each
holding exactly the outcome of its own specification fetch applied to its
seeded record, and a device whose fetch raised is still present with empty
functions and status_range; the rebuild itself returns without error
whatever the per-device oracles do. During status refresh: every device of
the registry is still processed with its own poll outcome regardless of the
other devices' failures, and a device whose status poll raised remains in
the registry completely untouched. -/
theorem claim_C7_per_device_isolation
    (resp : Resp (List DevData)) (devices : List DevData)
    (getSpecs : String → Except Err (Resp SpecResult))
    (jsonLoads : String → Option (List (String × JVal)))
    (dd : DevData)
    (hs : resp.success.truthy = true) (hres : resp.result = some devices)
    (hnd : (devices.map DevData.id).Nodup)
    (hmem : dd ∈ devices) (hid : dd.id ≠ "") :
    (updateDeviceCache (.ok resp) getSpecs jsonLoads []).1 = .ok () ∧
    alGet (updateDeviceCache (.ok resp) getSpecs jsonLoads []).2 dd.id =
      some (fetchDeviceSpecifications jsonLoads (getSpecs dd.id) (seedDevice dd)) ∧
    (∀ e, getSpecs dd.id = .error e →
      alGet (updateDeviceCache (.ok resp) getSpecs jsonLoads []).2 dd.id =
        some (seedDevice dd) ∧
      (seedDevice dd).functions = [] ∧ (seedDevice dd).status_range = []) ∧
    (∀ (getStatus : String → Except Err (Resp (List StatusItem)))
       (dmap : List (String × CustomerDevice)) (id2 : String) (dev2 : CustomerDevice),
      alGet dmap id2 = some dev2 →
      alGet (updateDeviceStatus getStatus dmap) id2 =
        some (applyStatusPoll (getStatus id2) dev2) ∧
      (∀ e2, getStatus id2 = .error e2 →
        alGet (updateDeviceStatus getStatus dmap) id2 = some dev2)) := by
  have hmain : updateDeviceCache (.ok resp) getSpecs jsonLoads [] =
      (.ok (), (devices.foldl insertSeed []).map
        (fun p => (p.1, fetchDeviceSpecifications jsonLoads (getSpecs p.2.id) p.2))) := by
    simp [updateDeviceCache, hs, hres]
  have hlook : alGet (updateDeviceCache (.ok resp) getSpecs jsonLoads []).2 dd.id =
      some (fetchDeviceSpecifications jsonLoads (getSpecs dd.id) (seedDevice dd)) := by
    rw [hmain]
    rw [alGet_mapValues
      (fun dev => fetchDeviceSpecifications jsonLoads (getSpecs dev.id) dev)
      (devices.foldl insertSeed []) dd.id]
    rw [alGet_insertSeed_mem devices [] dd hnd hmem hid]
    rfl
  refine ⟨by rw [hmain], hlook, ?_, ?_⟩
  · intro e he
    refine ⟨?_, rfl, rfl⟩
    rw [hlook, he]
    rfl
  · intro getStatus dmap id2 dev2 hdev2
    have hm : updateDeviceStatus getStatus dmap =
        dmap.map (fun p => (p.1, applyStatusPoll (getStatus p.1) p.2)) := rfl
    have hpoll : alGet (updateDeviceStatus getStatus dmap) id2 =
        some (applyStatusPoll (getStatus id2) dev2) := by
      rw [hm, alGet_mapEntries (fun k d => applyStatusPoll (getStatus k) d) dmap id2, hdev2]
      rfl
    refine ⟨hpoll, ?_⟩
    intro e2 he2
    rw [hpoll, he2]
    rfl

/-- C7 witness: both halves of the theorem at concrete two-device scenarios.
Rebuild: two listed devices, the second one's specification fetch raising —
both are in the rebuilt registry, the failing one with empty functions and
status_range, the healthy one carrying the specification its own fetch
returned. Refresh: a two-device registry whose first device's status poll
raises while the second's succeeds — the failing device stays in the
registry untouched and the other is merged normally. -/
theorem claim_C7_per_device_isolation_witness :
    (alGet (updateDeviceCache
        (.ok { success := JVal.jbool true,
               result := some [{ id := "d1" }, { id := "d2" }] })
        (fun i => if i = "d1"
          then .ok { success := JVal.jbool true,
                     result := some { functions := [⟨"switch_1", "Boolean", .wobj []⟩] } }
          else .error (.transport 5))
        (fun _ => none) []).2 "d2" =
      some (seedDevice { id := "d2" }) ∧
    (seedDevice { id := "d2" }).functions = [] ∧
    (seedDevice { id := "d2" }).status_range = [] ∧
    alGet (updateDeviceCache
        (.ok { success := JVal.jbool true,
               result := some [{ id := "d1" }, { id := "d2" }] })
        (fun i => if i = "d1"
          then .ok { success := JVal.jbool true,
                     result := some { functions := [⟨"switch_1", "Boolean", .wobj []⟩] } }
          else .error (.transport 5))
        (fun _ => none) []).2 "d1" =
      some (fetchDeviceSpecifications (fun _ => none)
        (.ok { success := JVal.jbool true,
               result := some { functions := [⟨"switch_1", "Boolean", .wobj []⟩] } })
        (seedDevice { id := "d1" }))) ∧
    alGet (updateDeviceStatus
        (fun i => if i = "d1" then .error (.transport 9)
          else .ok { success := JVal.jbool true,
                     result := some [⟨"switch_1", JVal.jbool true⟩] })
        [("d1", { id := "d1", status := [("switch_1", JVal.jbool false)] }),
         ("d2", { id := "d2", status := [("bright_value", JVal.jnum 500)] })]) "d1" =
      some { id := "d1", status := [("switch_1", JVal.jbool false)] } ∧
    alGet (updateDeviceStatus
        (fun i => if i = "d1" then .error (.transport 9)
          else .ok { success := JVal.jbool true,
                     result := some [⟨"switch_1", JVal.jbool true⟩] })
        [("d1", { id := "d1", status := [("switch_1", JVal.jbool false)] }),
         ("d2", { id := "d2", status := [("bright_value", JVal.jnum 500)] })]) "d2" =
      some { id := "d2",
             status := [("bright_value", JVal.jnum 500), ("switch_1", JVal.jbool true)] } := by
  have h2 := claim_C7_per_device_isolation
    { success := JVal.jbool true, result := some [{ id := "d1" }, { id := "d2" }] }
    [{ id := "d1" }, { id := "d2" }]
    (fun i => if i = "d1"
      then .ok { success := JVal.jbool true,
                 result := some { functions := [⟨"switch_1", "Boolean", .wobj []⟩] } }
      else .error (.transport 5))
    (fun _ => none) { id := "d2" }
    (by decide) rfl (by decide) (by decide) (by decide)
  have h1 := claim_C7_per_device_isolation
    { success := JVal.jbool true, result := some [{ id := "d1" }, { id := "d2" }] }
    [{ id := "d1" }, { id := "d2" }]
    (fun i => if i = "d1"
      then .ok { success := JVal.jbool true,
                 result := some { functions := [⟨"switch_1", "Boolean", .wobj []⟩] } }
      else .error (.transport 5))
    (fun _ => none) { id := "d1" }
    (by decide) rfl (by decide) (by decide) (by decide)
  obtain ⟨hok2, hfind2, hfail2, hstat2⟩ := h2
  obtain ⟨hfailA, hfailB, hfailC⟩ := hfail2 (.transport 5) rfl
  have hstatFail := hstat2
    (fun i => if i = "d1" then .error (.transport 9)
      else .ok { success := JVal.jbool true,
                 result := some [⟨"switch_1", JVal.jbool true⟩] })
    [("d1", { id := "d1", status := [("switch_1", JVal.jbool false)] }),
     ("d2", { id := "d2", status := [("bright_value", JVal.jnum 500)] })]
    "d1" { id := "d1", status := [("switch_1", JVal.jbool false)] } rfl
  have hstatOk := hstat2
    (fun i => if i = "d1" then .error (.transport 9)
      else .ok { success := JVal.jbool true,
                 result := some [⟨"switch_1", JVal.jbool true⟩] })
    [("d1", { id := "d1", status := [("switch_1", JVal.jbool false)] }),
     ("d2", { id := "d2", status := [("bright_value", JVal.jnum 500)] })]
    "d2" { id := "d2", status := [("bright_value", JVal.jnum 500)] } rfl
  refine ⟨⟨hfailA, hfailB, hfailC, ?_⟩, hstatFail.2 (.transport 9) rfl, ?_⟩
  · have := h1.2.1
    simpa using this
  · exact hstatOk.1

/-- C3 (amended): update_device_cache propagates an error exactly when the
device-list call itself raises (failed auth and API-error list responses
raise inside the composed client); once the list call has RETURNED — even a
success=false response, which is only logged, leaving the registry
untouched — the rebuild finishes without error whatever the per-device
specification oracles do, so per-device failures never raise. -/
theorem claim_C3_cache_rebuild_errors
    (getUserDevices : Except Err (Resp (List DevData)))
    (getSpecs : String → Except Err (Resp SpecResult))
    (jsonLoads : String → Option (List (String × JVal)))
    (dmap : List (String × CustomerDevice)) :
    (∀ e, getUserDevices = .error e →
      updateDeviceCache getUserDevices getSpecs jsonLoads dmap = (.error e, dmap)) ∧
    (∀ r, getUserDevices = .ok r →
      (updateDeviceCache getUserDevices getSpecs jsonLoads dmap).1 = .ok ()) ∧
    (∀ r, getUserDevices = .ok r → r.success.truthy = false →
      updateDeviceCache getUserDevices getSpecs jsonLoads dmap = (.ok (), dmap)) := by
  refine ⟨?_, ?_, ?_⟩
  · intro e he
    rw [he]
    rfl
  · intro r hr
    rw [hr]
    unfold updateDeviceCache
    cases htr : r.success.truthy <;> simp [htr]
  · intro r hr htr
    rw [hr]
    unfold updateDeviceCache
    simp [htr]

/-- C3 witness: the theorem applied at a raising list fetch (the error
propagates with the registry untouched) and at a success=false list response
(the rebuild returns normally). -/
theorem claim_C3_cache_rebuild_errors_witness :
    updateDeviceCache (.error (.apiError (JVal.jnum 1001) (JVal.jstr "bad sign")))
      (fun _ => .error (.transport 0)) (fun _ => none) [] =
      (.error (.apiError (JVal.jnum 1001) (JVal.jstr "bad sign")), []) ∧
    updateDeviceCache (.ok { success := JVal.jbool false, code := JVal.jnum 1106 })
      (fun _ => .error (.transport 0)) (fun _ => none) [] = (.ok (), []) :=
  ⟨(claim_C3_cache_rebuild_errors (.error (.apiError (JVal.jnum 1001) (JVal.jstr "bad sign")))
      (fun _ => .error (.transport 0)) (fun _ => none) []).1
      (.apiError (JVal.jnum 1001) (JVal.jstr "bad sign")) rfl,
   (claim_C3_cache_rebuild_errors (.ok { success := JVal.jbool false, code := JVal.jnum 1106 })
      (fun _ => .error (.transport 0)) (fun _ => none) []).2.2
      { success := JVal.jbool false, code := JVal.jnum 1106 } rfl (by decide)⟩

/-- C3 counterexample: one way the device list cannot be obtained — a
transport-level HTTP failure — does NOT reach the caller as an error: with a
valid token, the composed request returns the constructed success=false
response instead of raising, and update_device_cache then completes normally
with an unchanged (empty) registry, refuting "raises exactly when the device
list itself cannot be obtained". -/
theorem claim_C3_counterexample :
    @requestCC (List DevData) 0 (fun _ => NetRes.throw (Err.transport 0))
      (fun _ => BizRes.httpErr)
      ⟨⟨"tok", "ref", "u", 1000, 10000000⟩, false, 0, 0⟩ =
      (.ok failureResp, ⟨⟨"tok", "ref", "u", 1000, 10000000⟩, false, 0, 1⟩) ∧
    updateDeviceCache (.ok failureResp) (fun _ => .error (.transport 1))
      (fun _ => none) [] = (.ok (), []) := by
  constructor
  · rfl
  · rfl

/-- C8: send_commands returns true exactly when the server reported success —
i.e. when the underlying request chain produced a response whose success flag
is truthy — and it never mutates the device registry: the device map after
the call is the one before it, for every transport behavior. -/
theorem claim_C8_send_commands (nowMs : Int) (tok : Nat → NetRes TokenResult)
    (biz : Nat → BizRes Unit) (st : MgrStCC) :
    (sendCommandsFull nowMs tok biz st).2.device_map = st.device_map ∧
    ((sendCommandsFull nowMs tok biz st).1 = true ↔
      ∃ r, (requestCC nowMs tok biz st.api).1 = .ok r ∧ r.success.truthy = true) := by
  constructor
  · rfl
  · unfold sendCommandsFull sendCommandsMgr
    cases h : (requestCC nowMs tok biz st.api).1 with
    | error e => simp [h]
    | ok r =>
      cases htr : r.success.truthy with
      | true => simp [h, htr]
      | false =>
        simp only [h, htr]
        constructor
        · intro hcon
          simp at hcon
        · rintro ⟨r2, hr2, htr2⟩
          injection hr2 with hreq
          subst hreq
          rw [htr] at htr2
          exact Bool.noConfusion htr2

/-- C10: send_commands never propagates an exception — whenever the
underlying request chain raises (transport error, API error, token failure),
the call returns false. -/
theorem claim_C10_send_commands_no_raise (nowMs : Int) (tok : Nat → NetRes TokenResult)
    (biz : Nat → BizRes Unit) (st : MgrStCC) (e : Err)
    (h : (requestCC nowMs tok biz st.api).1 = .error e) :
    (sendCommandsFull nowMs tok biz st).1 = false := by
  simp [sendCommandsFull, sendCommandsMgr, h]

/-- C10 witness: a transport that throws (and a token considered valid)
makes the request chain raise; the theorem yields the false result, which is
also evaluated directly. -/
theorem claim_C10_send_commands_no_raise_witness :
    (@requestCC Unit 0 (fun _ => NetRes.throw (Err.transport 0))
        (fun _ => BizRes.throw (Err.transport 7))
        ⟨⟨"tok", "ref", "u", 1000, 10000000⟩, false, 0, 0⟩).1 =
      .error (.transport 7) ∧
    (sendCommandsFull 0 (fun _ => NetRes.throw (Err.transport 0))
        (fun _ => BizRes.throw (Err.transport 7))
        ⟨⟨⟨"tok", "ref", "u", 1000, 10000000⟩, false, 0, 0⟩, []⟩).1 = false :=
  ⟨rfl,
   claim_C10_send_commands_no_raise 0 (fun _ => NetRes.throw (Err.transport 0))
     (fun _ => BizRes.throw (Err.transport 7))
     ⟨⟨⟨"tok", "ref", "u", 1000, 10000000⟩, false, 0, 0⟩, []⟩ (.transport 7) rfl⟩

/-- C1 (amended): the sentinel-gated retry belongs to the truex_sharing
`CustomerApi.request` — with a usable token, a response with a falsy success
flag and the sentinel code 1010 (number or string) triggers exactly one
recovery: one forced token acquisition and one retry of the same call (the
trace is one extra token call and exactly two business calls), raising
TrueXAPIError exactly when the retry's success flag is still falsy and
returning the retry response otherwise; any other failure code performs no
retry and no token call, the failure response being returned to the caller
immediately. (The custom_components `request` instead raises at once with no
recovery even on the sentinel code — see the counterexample.) -/
theorem claim_C1_sentinel_retry (now : Int) (tok : Nat → NetRes TokenResult)
    (biz : Nat → NetRes Unit) (st : ApiStTX) (r : Resp Unit)
    (hvalid : st.token.isExpired now = false)
    (hr : biz st.bizCalls = .ok r)
    (hfail : r.success.truthy = false) :
    ((r.code = JVal.jnum 1010 ∨ r.code = JVal.jstr "1010") →
      ∀ (tr : Resp TokenResult) (r2 : Resp Unit),
        tok st.tokCalls = .ok tr → tr.success.truthy = true →
        biz (st.bizCalls + 1) = .ok r2 →
        requestTX now tok biz st =
          ((if r2.success.truthy = true then .ok r2
            else .error (.apiError r2.code r2.msg)),
           ⟨TokenInfoTX.ofResp tr now, st.tokCalls + 1, st.bizCalls + 2⟩)) ∧
    (¬ (r.code = JVal.jnum 1010 ∨ r.code = JVal.jstr "1010") →
      requestTX now tok biz st =
        (.ok r, ⟨st.token, st.tokCalls, st.bizCalls + 1⟩)) := by
  have hens : ensureTokenTX now tok st = (.ok (), st) := by
    simp [ensureTokenTX, hvalid]
  constructor
  · rintro hcode tr r2 htr htrs hr2
    simp only [requestTX, hens, takeBizTX, hr, hfail, Bool.false_eq_true, if_false,
      if_pos hcode, getAccessTokenTX, takeTokTX, htr, htrs, if_true, hr2]
    by_cases h2 : r2.success.truthy = true <;> simp [h2]
  · intro hcode
    simp only [requestTX, hens, takeBizTX, hr, hfail, Bool.false_eq_true, if_false,
      if_neg hcode]

/-- C1 witness: a mocked transport answering the first business call with
success=false and code 1010, the token endpoint with a fresh token, and the
retried business call with success=true; the theorem yields the success
response after exactly one token acquisition and one retry. -/
theorem claim_C1_sentinel_retry_witness :
    @requestTX Unit 0
      (fun _ => NetRes.ok { success := JVal.jbool true, t := 5,
                            result := some ⟨"newtok", "newref", "u", 7200⟩ })
      (fun n => if n = 0
        then NetRes.ok { success := JVal.jbool false, code := JVal.jnum 1010,
                         msg := JVal.jstr "token invalid" }
        else NetRes.ok { success := JVal.jbool true })
      ⟨⟨"tok", "ref", 100000, "u", 0⟩, 0, 0⟩ =
      (.ok { success := JVal.jbool true }, ⟨⟨"newtok", "newref", 7200, "u", 0⟩, 1, 2⟩) := by
  have h := (claim_C1_sentinel_retry 0
    (fun _ => NetRes.ok { success := JVal.jbool true, t := 5,
                          result := some ⟨"newtok", "newref", "u", 7200⟩ })
    (fun n => if n = 0
      then NetRes.ok { success := JVal.jbool false, code := JVal.jnum 1010,
                       msg := JVal.jstr "token invalid" }
      else NetRes.ok { success := JVal.jbool true })
    ⟨⟨"tok", "ref", 100000, "u", 0⟩, 0, 0⟩
    { success := JVal.jbool false, code := JVal.jnum 1010, msg := JVal.jstr "token invalid" }
    (by decide) rfl (by decide)).1 (Or.inl rfl)
    { success := JVal.jbool true, t := 5, result := some ⟨"newtok", "newref", "u", 7200⟩ }
    { success := JVal.jbool true } rfl (by decide) rfl
  simpa using h

/-- C1 counterexample: the custom_components `CustomerApi.request`, given a
usable token and a business response with success=false and the sentinel
invalid-token code 1010, raises TrueXAPIError at once — no token acquisition
and no retry happen (the final state shows zero token calls and exactly one
business call), contradicting the claimed one-recovery-attempt behavior. -/
theorem claim_C1_counterexample :
    @requestCC Unit 0 (fun _ => NetRes.throw (Err.transport 0))
      (fun _ => BizRes.ok { success := JVal.jbool false, code := JVal.jnum 1010,
                            msg := JVal.jstr "token invalid" })
      ⟨⟨"tok", "ref", "u", 1000, 10000000⟩, false, 0, 0⟩ =
      (.error (.apiError (JVal.jnum 1010) (JVal.jstr "token invalid")),
       ⟨⟨"tok", "ref", "u", 1000, 10000000⟩, false, 0, 1⟩) := rfl

/-- C5 (amended): the `_refreshing_token` guard does make a concurrent caller
of the refresh path issue no second network call — a task entering
`_refresh_access_token` while the flag is set performs a single guard step to
completion, consuming no network response and leaving the shared state
(token included) unchanged — but it does NOT await the in-flight refresh: it
returns immediately, and its caller proceeds with the pre-existing token, not
with the token the in-flight refresh will install (see the counterexample for
a concrete interleaving). -/
theorem claim_C5_refresh_guard (tok : Nat → NetRes TokenResult) (s : CoopSt)
    (h : s.flag = true) :
    rstep tok s RLoc.start = (s, RLoc.done) := by
  simp [rstep, h]

/-- C5 witness: the guard theorem applied at a concrete shared state with the
flag set. -/
theorem claim_C5_refresh_guard_witness :
    rstep (fun _ => NetRes.throw (Err.transport 0))
      ⟨true, ⟨"old", "r", "u", 0, 0⟩, 0⟩ RLoc.start =
      (⟨true, ⟨"old", "r", "u", 0, 0⟩, 0⟩, RLoc.done) :=
  claim_C5_refresh_guard (fun _ => NetRes.throw (Err.transport 0))
    ⟨true, ⟨"old", "r", "u", 0, 0⟩, 0⟩ rfl

/-- C5 counterexample: a concrete cooperative interleaving — task A enters
the refresh and suspends at the network await with the flag set; task B then
enters, sees the flag, and returns at once while the OLD token is still
installed; task A later resumes and installs the new token. Task B completed
the refresh path observing the stale token, not the result of the single
in-flight refresh, although only one network call was made — refuting the
claim that a concurrent caller proceeds only with the refreshed token. -/
theorem claim_C5_counterexample :
    (coopRun
        (fun _ => NetRes.ok { success := JVal.jbool true, t := 1000,
                              result := some ⟨"new", "r2", "u", 7200⟩ })
        [false, true, false]
        ⟨⟨false, ⟨"old", "r", "u", 0, 0⟩, 0⟩, RLoc.start, RLoc.start, none, none⟩).tokenAtDoneB =
      some ⟨"old", "r", "u", 0, 0⟩ ∧
    (coopRun
        (fun _ => NetRes.ok { success := JVal.jbool true, t := 1000,
                              result := some ⟨"new", "r2", "u", 7200⟩ })
        [false, true, false]
        ⟨⟨false, ⟨"old", "r", "u", 0, 0⟩, 0⟩, RLoc.start, RLoc.start, none, none⟩).sh.token =
      ⟨"new", "r2", "u", 7200, 7201000⟩ ∧
    (coopRun
        (fun _ => NetRes.ok { success := JVal.jbool true, t := 1000,
                              result := some ⟨"new", "r2", "u", 7200⟩ })
        [false, true, false]
        ⟨⟨false, ⟨"old", "r", "u", 0, 0⟩, 0⟩, RLoc.start, RLoc.start, none, none⟩).sh.tokCalls = 1 ∧
    (⟨"old", "r", "u", 0, 0⟩ : TokenInfoCC) ≠ ⟨"new", "r2", "u", 7200, 7201000⟩ := by
  refine ⟨rfl, rfl, rfl, by decide⟩
